import Mathlib

/-!
Verification of the Address-Matching Streamlit app (`src/app.py`).

The app's logic after the external Gemini call is pure: `parse_json_response`
deserializes the model's text into a `MatchResult` (or `None`), and
`score_addresses` substitutes a fixed default on parse failure and clamps the
confidence into [0, 100].  The module-level form-submit handler reads the API
key from `st.secrets`, shows an inline error when the key is empty, warns on
blank addresses, and otherwise performs the model call.

Modelling choices:
* Python floats are modelled as exact rationals (`Rat`); decimal literals are
  taken at their exact decimal value.  Non-finite floats (NaN/Infinity) and
  IEEE rounding are outside the model.
* `json.loads` is modelled by the executable `loads` below, implementing the
  RFC 8259 grammar that CPython's `json` module accepts (objects, arrays,
  strings with escapes, numbers, literals, with `[ \t\n\r]` as whitespace and
  strict rejection of unescaped control characters).  CPython's nonstandard
  `NaN`/`Infinity` extension and surrogate-pair decoding of `\uXXXX` escapes
  are outside the model.
* Python exceptions are modelled by `Except PyExc`; `Except.ok` is normal
  return, `Except.error` an exception propagating out of the function.
* The external `model.generate_content` call is abstracted to the text it
  returns: `score_addresses` is modelled as a function of `raw_text`
  (the code's `response.text or ""`).
-/

/-- Python exceptions relevant to `app.py`'s control flow. -/
inductive PyExc where
  | jsonDecodeError
  | typeError
  | valueError
  | attributeError
  | keyError
deriving DecidableEq

/-- A deserialized JSON value as produced by Python's `json.loads`:
integer literals become Python `int`s, other number literals `float`s,
objects become `dict`s (modelled as association lists, later duplicate
keys shadowing earlier ones, as in CPython). -/
inductive Json where
  | null
  | bool (b : Bool)
  | int (n : Int)
  | float (q : Rat)
  | str (s : String)
  | arr (xs : List Json)
  | obj (kvs : List (String × Json))

/-- The dataclass `MatchResult` of `app.py`. -/
structure MatchResult where
  confidence : Rat
  decision : String
  reasoning : String
deriving DecidableEq

/-- The whitespace characters JSON's grammar allows between tokens
(CPython `json`: space, tab, newline, carriage return). -/
def jsonWsChar (c : Char) : Bool :=
  c = ' ' ∨ c = '\t' ∨ c = '\n' ∨ c = '\r'

def skipJsonWs (cs : List Char) : List Char :=
  cs.dropWhile jsonWsChar

/-- The characters Python's `str.strip()` (and `float(str)`) removes at the
ends of a string: the ASCII whitespace set (Unicode spaces outside the model). -/
def pyIsSpace (c : Char) : Bool :=
  c = ' ' ∨ c = '\t' ∨ c = '\n' ∨ c = '\r' ∨ c = '\x0b' ∨ c = '\x0c'

def pyStripList (cs : List Char) : List Char :=
  ((cs.dropWhile pyIsSpace).reverse.dropWhile pyIsSpace).reverse

/-- Python `str.strip()` with no arguments. -/
def pyStrip (s : String) : String :=
  String.mk (pyStripList s.toList)

def hexVal (c : Char) : Option Nat :=
  if '0' ≤ c ∧ c ≤ '9' then some (c.toNat - '0'.toNat)
  else if 'a' ≤ c ∧ c ≤ 'f' then some (c.toNat - 'a'.toNat + 10)
  else if 'A' ≤ c ∧ c ≤ 'F' then some (c.toNat - 'A'.toNat + 10)
  else none

def escChar (c : Char) : Option Char :=
  if c = '"' then some '"'
  else if c = '\\' then some '\\'
  else if c = '/' then some '/'
  else if c = 'b' then some '\x08'
  else if c = 'f' then some '\x0c'
  else if c = 'n' then some '\n'
  else if c = 'r' then some '\r'
  else if c = 't' then some '\t'
  else none

/-- Body of a JSON string after the opening quote: returns the decoded
characters and the input remaining after the closing quote.  Unescaped
control characters are rejected (CPython's default `strict=True`). -/
def parseStringBody : List Char → Option (List Char × List Char)
  | [] => none
  | '"' :: rest => some ([], rest)
  | '\\' :: 'u' :: a :: b :: c :: d :: rest =>
    match hexVal a, hexVal b, hexVal c, hexVal d with
    | some ha, some hb, some hc, some hd =>
      match parseStringBody rest with
      | some (s, r) =>
        some (Char.ofNat (((ha * 16 + hb) * 16 + hc) * 16 + hd) :: s, r)
      | none => none
    | _, _, _, _ => none
  | '\\' :: e :: rest =>
    match escChar e with
    | some c =>
      match parseStringBody rest with
      | some (s, r) => some (c :: s, r)
      | none => none
    | none => none
  | c :: rest =>
    if c.toNat < 32 then none
    else
      match parseStringBody rest with
      | some (s, r) => some (c :: s, r)
      | none => none

def digitsToNat (ds : List Char) : Nat :=
  ds.foldl (fun a c => a * 10 + (c.toNat - '0'.toNat)) 0

/-- `m` scaled by `10 ^ e`, as an exact rational. -/
def scalePowTen (m : Nat) (e : Int) : Rat :=
  if 0 ≤ e then (m : Rat) * 10 ^ e.toNat else (m : Rat) / 10 ^ (-e).toNat

/-- An exponent part `(e|E)[+-]?digits`; fails if absent or malformed. -/
def parseExp : List Char → Option (Int × List Char)
  | 'e' :: rest => parseExpTail rest
  | 'E' :: rest => parseExpTail rest
  | _ => none
where
  parseExpTail (rest : List Char) : Option (Int × List Char) :=
    let (neg, rest1) : Bool × List Char :=
      match rest with
      | '+' :: r => (false, r)
      | '-' :: r => (true, r)
      | _ => (false, rest)
    let ds := rest1.takeWhile Char.isDigit
    if ds.isEmpty then none
    else
      let v : Int := digitsToNat ds
      some (if neg then -v else v, rest1.dropWhile Char.isDigit)

/-- A JSON number token: `-?(0|[1-9][0-9]*)(\.[0-9]+)?([eE][+-]?[0-9]+)?`.
An integer literal (no fraction, no exponent) becomes a Python `int`,
anything else a `float`. -/
def parseNumberTok (cs : List Char) : Option (Json × List Char) :=
  let (neg, cs1) : Bool × List Char :=
    match cs with
    | '-' :: r => (true, r)
    | _ => (false, cs)
  match cs1.head? with
  | none => none
  | some c =>
    if ¬ c.isDigit then none
    else
      let ip := cs1.takeWhile Char.isDigit
      let r1 := cs1.dropWhile Char.isDigit
      if 1 < ip.length ∧ ip.head? = some '0' then none
      else
        match r1 with
        | '.' :: r2 =>
          let fp := r2.takeWhile Char.isDigit
          let r3 := r2.dropWhile Char.isDigit
          if fp.isEmpty then none
          else
            let mant := digitsToNat (ip ++ fp)
            match parseExp r3 with
            | some (e, r4) =>
              some (Json.float ((if neg then -1 else 1) *
                scalePowTen mant (e - (fp.length : Int))), r4)
            | none =>
              some (Json.float ((if neg then -1 else 1) *
                scalePowTen mant (-(fp.length : Int))), r3)
        | _ =>
          match parseExp r1 with
          | some (e, r4) =>
            some (Json.float ((if neg then -1 else 1) *
              scalePowTen (digitsToNat ip) e), r4)
          | none =>
            some (Json.int (if neg then -(digitsToNat ip : Int)
              else (digitsToNat ip : Int)), r1)

mutual

/-- A JSON value (leading whitespace allowed), returning the remaining input.
Fuel bounds recursion depth; `loads` supplies more fuel than any input of its
length can consume. -/
def parseJsonVal : Nat → List Char → Option (Json × List Char)
  | 0, _ => none
  | Nat.succ fuel, cs =>
    match skipJsonWs cs with
    | 'n' :: 'u' :: 'l' :: 'l' :: rest => some (Json.null, rest)
    | 't' :: 'r' :: 'u' :: 'e' :: rest => some (Json.bool true, rest)
    | 'f' :: 'a' :: 'l' :: 's' :: 'e' :: rest => some (Json.bool false, rest)
    | '"' :: rest =>
      match parseStringBody rest with
      | some (s, r) => some (Json.str (String.mk s), r)
      | none => none
    | '[' :: rest =>
      (match skipJsonWs rest with
       | ']' :: r => some (Json.arr [], r)
       | cs2 =>
         match parseArrayItems fuel cs2 with
         | some (xs, r) => some (Json.arr xs, r)
         | none => none)
    | '{' :: rest =>
      (match skipJsonWs rest with
       | '}' :: r => some (Json.obj [], r)
       | cs2 =>
         match parseObjectItems fuel cs2 with
         | some (kvs, r) => some (Json.obj kvs, r)
         | none => none)
    | cs2 => parseNumberTok cs2

/-- One or more comma-separated array elements followed by `]`. -/
def parseArrayItems : Nat → List Char → Option (List Json × List Char)
  | 0, _ => none
  | Nat.succ fuel, cs =>
    match parseJsonVal fuel cs with
    | none => none
    | some (v, r) =>
      match skipJsonWs r with
      | ',' :: r2 =>
        (match parseArrayItems fuel r2 with
         | some (xs, r3) => some (v :: xs, r3)
         | none => none)
      | ']' :: r2 => some ([v], r2)
      | _ => none

/-- One or more comma-separated `"key": value` pairs followed by `}`. -/
def parseObjectItems : Nat → List Char → Option (List (String × Json) × List Char)
  | 0, _ => none
  | Nat.succ fuel, cs =>
    match skipJsonWs cs with
    | '"' :: rest =>
      (match parseStringBody rest with
       | none => none
       | some (k, r) =>
         match skipJsonWs r with
         | ':' :: r2 =>
           (match parseJsonVal fuel r2 with
            | none => none
            | some (v, r3) =>
              match skipJsonWs r3 with
              | ',' :: r4 =>
                (match parseObjectItems fuel r4 with
                 | some (kvs, r5) => some ((String.mk k, v) :: kvs, r5)
                 | none => none)
              | '}' :: r4 => some ([(String.mk k, v)], r4)
              | _ => none)
         | _ => none)
    | _ => none

end

/-- Python's `json.loads`: the whole input must be one JSON value surrounded
only by whitespace, else the parse fails (`json.JSONDecodeError`). -/
def loads (s : String) : Option Json :=
  match parseJsonVal (2 * s.length + 8) s.toList with
  | some (v, rest) => if (skipJsonWs rest).isEmpty then some v else none
  | none => none

/-- Core of Python `float(str)` after whitespace stripping and sign removal:
`digits [. [digits]] [exp]` or `. digits [exp]`, the whole input consumed.
(CPython also accepts `inf`/`nan` spellings and underscore digit separators;
those are outside the rational-valued model.) -/
def pyFloatCore (cs : List Char) : Option Rat :=
  let ip := cs.takeWhile Char.isDigit
  let r1 := cs.dropWhile Char.isDigit
  match r1 with
  | '.' :: r2 =>
    let fp := r2.takeWhile Char.isDigit
    let r3 := r2.dropWhile Char.isDigit
    if ip.isEmpty ∧ fp.isEmpty then none
    else
      let mant := digitsToNat (ip ++ fp)
      (match r3 with
       | [] => some (scalePowTen mant (-(fp.length : Int)))
       | _ =>
         match parseExp r3 with
         | some (e, []) => some (scalePowTen mant (e - (fp.length : Int)))
         | _ => none)
  | _ =>
    if ip.isEmpty then none
    else
      (match r1 with
       | [] => some ((digitsToNat ip : Nat) : Rat)
       | _ =>
         match parseExp r1 with
         | some (e, []) => some (scalePowTen (digitsToNat ip) e)
         | _ => none)

/-- Python `float(str)`: strips whitespace, allows one leading sign, then a
decimal floating-point literal; raises `ValueError` on anything else. -/
def pyFloatOfString (s : String) : Option Rat :=
  let cs := pyStripList s.toList
  match cs with
  | '+' :: rest => pyFloatCore rest
  | '-' :: rest => (pyFloatCore rest).map Neg.neg
  | _ => pyFloatCore cs

/-- Python `float(x)` on a deserialized JSON value: numbers and booleans
convert numerically, strings are parsed (`ValueError` on failure), and
`None`/lists/dicts raise `TypeError`. -/
def pyFloat : Json → Except PyExc Rat
  | Json.null => Except.error PyExc.typeError
  | Json.bool b => Except.ok (if b then 1 else 0)
  | Json.int n => Except.ok (n : Rat)
  | Json.float q => Except.ok q
  | Json.str s =>
    match pyFloatOfString s with
    | some q => Except.ok q
    | none => Except.error PyExc.valueError
  | Json.arr _ => Except.error PyExc.typeError
  | Json.obj _ => Except.error PyExc.typeError

def digitChar (d : Nat) : Char := Char.ofNat ('0'.toNat + d)

/-- Decimal digits of the fractional part `r / d` (long division), up to the
fuel bound; every `float` the model constructs has a finite expansion. -/
def fracDigits : Nat → Nat → Nat → List Char
  | 0, _, _ => []
  | Nat.succ fuel, r, d =>
    if r = 0 then []
    else digitChar (r * 10 / d) :: fracDigits fuel (r * 10 % d) d

/-- Decimal rendering of a rational, modelling Python `str(float)` for
moderate magnitudes (`"150.0"`, `"-1.5"`); Python's switch to scientific
notation at extreme magnitudes is outside the model. -/
def ratDecimalRepr (q : Rat) : String :=
  let na := q.num.natAbs
  (if q.num < 0 then "-" else "") ++ toString (na / q.den) ++ "." ++
    (let fd := fracDigits 40 (na % q.den) q.den
     if fd.isEmpty then "0" else String.mk fd)

/-- Escapes for Python `repr` of a string quoted with `q`
(printable subset; `\xNN` escapes of other controls outside the model). -/
def pyEscapeChar (q : Char) (c : Char) : List Char :=
  if c = '\\' then ['\\', '\\']
  else if c = q then ['\\', q]
  else if c = '\n' then ['\\', 'n']
  else if c = '\r' then ['\\', 'r']
  else if c = '\t' then ['\\', 't']
  else [c]

/-- Python `repr` of a `str`: single-quoted unless the string contains a
single quote and no double quote. -/
def pyStrQuote (s : String) : String :=
  let q : Char := if s.toList.contains '\'' ∧ ¬ s.toList.contains '"' then '"' else '\''
  String.mk (q :: (s.toList.map (pyEscapeChar q)).flatten ++ [q])

mutual

/-- Python `repr` of a deserialized JSON value. -/
def pyRepr : Json → String
  | Json.null => "None"
  | Json.bool true => "True"
  | Json.bool false => "False"
  | Json.int n => toString n
  | Json.float q => ratDecimalRepr q
  | Json.str s => pyStrQuote s
  | Json.arr xs => "[" ++ String.intercalate ", " (pyReprList xs) ++ "]"
  | Json.obj kvs => "\x7b" ++ String.intercalate ", " (pyReprPairs kvs) ++ "\x7d"

def pyReprList : List Json → List String
  | [] => []
  | x :: xs => pyRepr x :: pyReprList xs

def pyReprPairs : List (String × Json) → List String
  | [] => []
  | kv :: rest => (pyStrQuote kv.1 ++ ": " ++ pyRepr kv.2) :: pyReprPairs rest

end

/-- Python `str(x)` on a deserialized JSON value: a string is itself,
anything else its `repr`. -/
def pyStr : Json → String
  | Json.str s => s
  | v => pyRepr v

/-- Python `dict.get(key, default)` on a dict built by `json.loads`:
the last binding of a duplicated key wins (CPython dict insertion). -/
def pyDictGet (kvs : List (String × Json)) (key : String) (dflt : Json) : Json :=
  match kvs.reverse.find? (fun kv => kv.1 == key) with
  | some kv => kv.2
  | none => dflt

/-- `parse_json_response` of `app.py`.  `json.JSONDecodeError` is caught and
returns `None`; the `MatchResult` construction catches `TypeError` and
`ValueError` (from `float(...)`) and returns `None`; any other exception —
in particular the `AttributeError` `payload.get` raises when the payload is
not a dict — propagates. -/
def parse_json_response (raw_text : String) : Except PyExc (Option MatchResult) :=
  match loads raw_text with
  | none => Except.ok none
  | some (Json.obj kvs) =>
    (match pyFloat (pyDictGet kvs "confidence" (Json.int 0)) with
     | Except.ok c =>
       Except.ok (some
         { confidence := c
           decision := pyStrip (pyStr (pyDictGet kvs "decision" (Json.str "")))
           reasoning := pyStrip (pyStr (pyDictGet kvs "reasoning" (Json.str ""))) })
     | Except.error PyExc.typeError => Except.ok none
     | Except.error PyExc.valueError => Except.ok none
     | Except.error e => Except.error e)
  | some _ => Except.error PyExc.attributeError

/-- The fallback record `score_addresses` substitutes when parsing fails. -/
def fallbackResult : MatchResult :=
  { confidence := 0
    decision := "no_match"
    reasoning := "Could not parse model response; defaulting to no match." }

/-- `score_addresses` of `app.py`, abstracted over the external Gemini call:
`raw_text` is the text of the model's response (`response.text or ""`).
Parses it, substitutes `fallbackResult` when the parser returned `None`, and
clamps the confidence with `max(0.0, min(100.0, ...))`. -/
def score_addresses (raw_text : String) : Except PyExc MatchResult :=
  match parse_json_response raw_text with
  | Except.error e => Except.error e
  | Except.ok parsedOpt =>
    let parsed := parsedOpt.getD fallbackResult
    Except.ok { parsed with confidence := max 0 (min 100 parsed.confidence) }

/-- Outcome of one run of the module-level submit handler. -/
inductive UIOutcome where
  | noSubmit
  | errorMsg (msg : String)
  | warning (msg : String)
  | callModel (api_key addr_a addr_b : String)
deriving DecidableEq

/-- `st.secrets[key]`: dict-style access into the secrets store. -/
def secretsItem (secrets : List (String × String)) (key : String) : Option String :=
  (secrets.find? (fun kv => kv.1 == key)).map (fun kv => kv.2)

/-- The module-level form-submit handler of `app.py` (lines 114-123).
`st.secrets["GEMINI_API_KEY"]` raises a `KeyError`-style exception when the
key is absent; a present-but-falsy (empty) key shows the inline error; blank
addresses show the warning; otherwise `configure_genai` and `score_addresses`
run (`UIOutcome.callModel` with the stripped addresses). -/
def submitHandler (secrets : List (String × String)) (submitted : Bool)
    (addr1 addr2 : String) : Except PyExc UIOutcome :=
  if submitted then
    match secretsItem secrets "GEMINI_API_KEY" with
    | none => Except.error PyExc.keyError
    | some api_key =>
      if api_key = "" then
        Except.ok (UIOutcome.errorMsg "Missing GEMINI_API_KEY environment variable.")
      else if pyStrip addr1 = "" ∨ pyStrip addr2 = "" then
        Except.ok (UIOutcome.warning "Please enter both addresses.")
      else
        Except.ok (UIOutcome.callModel api_key (pyStrip addr1) (pyStrip addr2))
  else Except.ok UIOutcome.noSubmit

/-! ## Helper lemmas -/

theorem head?_dropWhile_false {α : Type} (p : α → Bool) (l : List α) (c : α)
    (h : (l.dropWhile p).head? = some c) : p c = false := by
  have hd := List.head?_dropWhile_not p l
  rw [h] at hd
  exact hd

theorem dropWhile_ne_nil_getLast? {α : Type} (p : α → Bool) (l : List α)
    (h : l.dropWhile p ≠ []) : (l.dropWhile p).getLast? = l.getLast? := by
  induction l with
  | nil => simp [List.dropWhile] at h
  | cons a as ih =>
    rw [List.dropWhile_cons] at h ⊢
    by_cases hp : p a = true
    · rw [if_pos hp] at h ⊢
      have has : as ≠ [] := by
        intro he
        rw [he] at h
        simp [List.dropWhile] at h
      rw [ih h]
      cases as with
      | nil => exact absurd rfl has
      | cons b bs => rfl
    · rw [if_neg hp]

theorem pyStrip_head_not_space (s : String) (c : Char)
    (h : (pyStrip s).toList.head? = some c) : pyIsSpace c = false := by
  have h1 : (((s.toList.dropWhile pyIsSpace).reverse.dropWhile pyIsSpace).reverse).head?
      = some c := h
  rw [List.head?_reverse] at h1
  have hne : (s.toList.dropWhile pyIsSpace).reverse.dropWhile pyIsSpace ≠ [] := by
    intro he
    rw [he] at h1
    exact Option.noConfusion h1
  rw [dropWhile_ne_nil_getLast? pyIsSpace _ hne, List.getLast?_reverse] at h1
  exact head?_dropWhile_false pyIsSpace _ c h1

theorem pyStrip_getLast_not_space (s : String) (c : Char)
    (h : (pyStrip s).toList.getLast? = some c) : pyIsSpace c = false := by
  have h1 : (((s.toList.dropWhile pyIsSpace).reverse.dropWhile pyIsSpace).reverse).getLast?
      = some c := h
  rw [List.getLast?_reverse] at h1
  exact head?_dropWhile_false pyIsSpace _ c h1

theorem pyDictGet_of_absent (kvs : List (String × Json)) (key : String) (dflt : Json)
    (h : ∀ kv ∈ kvs, kv.1 ≠ key) : pyDictGet kvs key dflt = dflt := by
  unfold pyDictGet
  have hn : kvs.reverse.find? (fun kv => kv.1 == key) = none := by
    rw [List.find?_eq_none]
    intro x hx
    simp only [List.mem_reverse] at hx
    simpa using h x hx
  rw [hn]

theorem pyFloat_error_cases (v : Json) (e : PyExc) (h : pyFloat v = Except.error e) :
    e = PyExc.typeError ∨ e = PyExc.valueError := by
  cases v with
  | null => exact Or.inl (Except.error.inj h).symm
  | bool b => exact Except.noConfusion h
  | int n => exact Except.noConfusion h
  | float q => exact Except.noConfusion h
  | str s =>
    simp only [pyFloat] at h
    cases hp : pyFloatOfString s with
    | some q => rw [hp] at h; exact Except.noConfusion h
    | none => rw [hp] at h; exact Or.inr (Except.error.inj h).symm
  | arr xs => exact Or.inl (Except.error.inj h).symm
  | obj kvs => exact Or.inl (Except.error.inj h).symm

/-- Successful parses come only from object payloads, and have exactly the
shape line 45-49 of `app.py` constructs. -/
theorem parse_ok_shape (raw : String) (r : MatchResult)
    (h : parse_json_response raw = Except.ok (some r)) :
    ∃ kvs q, loads raw = some (Json.obj kvs) ∧
      pyFloat (pyDictGet kvs "confidence" (Json.int 0)) = Except.ok q ∧
      r = { confidence := q
            decision := pyStrip (pyStr (pyDictGet kvs "decision" (Json.str "")))
            reasoning := pyStrip (pyStr (pyDictGet kvs "reasoning" (Json.str ""))) } := by
  unfold parse_json_response at h
  split at h
  · exact absurd (Except.ok.inj h) (fun hh => Option.noConfusion hh)
  · split at h
    · refine ⟨_, _, by assumption, by assumption, ?_⟩
      exact (Option.some.inj (Except.ok.inj h)).symm
    · exact absurd (Except.ok.inj h) (fun hh => Option.noConfusion hh)
    · exact absurd (Except.ok.inj h) (fun hh => Option.noConfusion hh)
    · exact Except.noConfusion h
  · exact Except.noConfusion h

/-- A payload that deserializes to anything but an object makes
`payload.get` raise `AttributeError`, which line 50 does not catch. -/
theorem parse_nonobj_attribute_error (raw : String) (v : Json)
    (hl : loads raw = some v) (hv : ∀ kvs, v ≠ Json.obj kvs) :
    parse_json_response raw = Except.error PyExc.attributeError := by
  unfold parse_json_response
  rw [hl]
  cases v with
  | obj kvs => exact absurd rfl (hv kvs)
  | null => rfl
  | bool b => rfl
  | int n => rfl
  | float q => rfl
  | str s => rfl
  | arr xs => rfl

/-! ## Claims -/

/-- Claim C1: every `MatchResult` produced by `score_addresses` has its
confidence clamped into [0, 100], whatever value the parser returned. -/
theorem claim_C1_confidence_clamped (raw : String) (r : MatchResult)
    (h : score_addresses raw = Except.ok r) :
    0 ≤ r.confidence ∧ r.confidence ≤ 100 := by
  unfold score_addresses at h
  split at h
  · exact Except.noConfusion h
  · have hr := (Except.ok.inj h).symm
    subst hr
    exact ⟨le_max_left 0 _, max_le (by norm_num) (min_le_left _ _)⟩

theorem claim_C1_witness :
    0 ≤ ({ confidence := 0, decision := "no_match",
           reasoning := "Could not parse model response; defaulting to no match." }
         : MatchResult).confidence ∧
    ({ confidence := 0, decision := "no_match",
       reasoning := "Could not parse model response; defaulting to no match." }
     : MatchResult).confidence ≤ 100 :=
  claim_C1_confidence_clamped "not json" _ rfl

/-- Claim C2: an input that is not valid JSON makes `parse_json_response`
return `None`, and `score_addresses` then substitutes the fixed default
record (confidence 0, decision no_match, explanatory reasoning sentence). -/
theorem claim_C2_invalid_json_default (raw : String) (h : loads raw = none) :
    parse_json_response raw = Except.ok none ∧
    score_addresses raw = Except.ok
      { confidence := 0, decision := "no_match",
        reasoning := "Could not parse model response; defaulting to no match." } := by
  have hp : parse_json_response raw = Except.ok none := by
    unfold parse_json_response
    rw [h]
  refine ⟨hp, ?_⟩
  unfold score_addresses
  rw [hp]
  have hc : max (0 : Rat) (min 100 0) = 0 := by norm_num
  simp [fallbackResult, hc]

theorem claim_C2_witness :
    loads "certainly not JSON" = none ∧
    parse_json_response "certainly not JSON" = Except.ok none ∧
    score_addresses "certainly not JSON" = Except.ok
      { confidence := 0, decision := "no_match",
        reasoning := "Could not parse model response; defaulting to no match." } :=
  ⟨rfl, (claim_C2_invalid_json_default "certainly not JSON" rfl).1,
    (claim_C2_invalid_json_default "certainly not JSON" rfl).2⟩

/-- Claim C3: the literal parser input with confidence 150 and decision
match yields confidence 100 and decision match after clamping. -/
theorem claim_C3_literal_150 :
    score_addresses
      "\x7b\"confidence\": 150, \"decision\": \"match\", \"reasoning\": \"same number and street\"\x7d" =
    Except.ok { confidence := 100, decision := "match",
                reasoning := "same number and street" } := rfl

/-- Claim C4 counterexample: valid JSON that is not an object — here the
list `[1]` — makes `payload.get` raise an `AttributeError` that the
`except (TypeError, ValueError)` clause does not catch, so
`parse_json_response` (and `score_addresses` downstream) raises instead of
returning the default result. -/
theorem claim_C4_counterexample :
    loads "[1]" = some (Json.arr [Json.int 1]) ∧
    parse_json_response "[1]" = Except.error PyExc.attributeError ∧
    score_addresses "[1]" = Except.error PyExc.attributeError :=
  ⟨rfl, rfl, rfl⟩

/-- Claim C4 amended: `parse_json_response` returns normally (a
`MatchResult` or `None`) exactly when the input fails JSON decoding or
decodes to a JSON object; on valid JSON decoding to a non-object (list,
number, string, boolean, null) the uncaught `AttributeError` from
`payload.get` propagates. -/
theorem claim_C4_amended_total_iff_object (raw : String) :
    (∃ o, parse_json_response raw = Except.ok o) ↔
      (loads raw = none ∨ ∃ kvs, loads raw = some (Json.obj kvs)) := by
  constructor
  · rintro ⟨o, ho⟩
    cases hl : loads raw with
    | none => exact Or.inl rfl
    | some v =>
      refine Or.inr ?_
      cases v
      case obj kvs => exact ⟨kvs, rfl⟩
      all_goals
        rw [parse_nonobj_attribute_error raw _ hl (fun kvs hh => Json.noConfusion hh)] at ho
        exact Except.noConfusion ho
  · rintro (hl | ⟨kvs, hl⟩)
    · exact ⟨none, by unfold parse_json_response; rw [hl]⟩
    · cases hf : pyFloat (pyDictGet kvs "confidence" (Json.int 0)) with
      | ok q =>
        refine ⟨some (MatchResult.mk q
          (pyStrip (pyStr (pyDictGet kvs "decision" (Json.str ""))))
          (pyStrip (pyStr (pyDictGet kvs "reasoning" (Json.str ""))))), ?_⟩
        unfold parse_json_response
        rw [hl]
        dsimp only
        rw [hf]
      | error e =>
        rcases pyFloat_error_cases _ _ hf with he | he <;>
          (subst he
           refine ⟨none, ?_⟩
           unfold parse_json_response
           rw [hl]
           dsimp only
           rw [hf])

/-- Claim C5 (code bug): with the key absent from the secrets store,
`st.secrets["GEMINI_API_KEY"]` raises before the inline-error branch can
run, so no inline message is shown (no model call is attempted either).
The inline error is reachable only for a present-but-empty key. -/
theorem claim_C5_absent_key_raises :
    submitHandler [] true "10 Downing St" "10 Downing Street" =
      Except.error PyExc.keyError ∧
    submitHandler [("GEMINI_API_KEY", "")] true "10 Downing St" "10 Downing Street" =
      Except.ok (UIOutcome.errorMsg "Missing GEMINI_API_KEY environment variable.") :=
  ⟨rfl, rfl⟩

/-- Claim C6: with a present non-empty key, a blank (or whitespace-only)
address field produces the warning and suppresses the model call. -/
theorem claim_C6_blank_address_warning (secrets : List (String × String))
    (k a1 a2 : String) (hk : secretsItem secrets "GEMINI_API_KEY" = some k)
    (hne : k ≠ "") (hblank : pyStrip a1 = "" ∨ pyStrip a2 = "") :
    submitHandler secrets true a1 a2 =
      Except.ok (UIOutcome.warning "Please enter both addresses.") := by
  unfold submitHandler
  rw [if_pos rfl, hk]
  dsimp only
  rw [if_neg hne, if_pos hblank]

theorem claim_C6_witness :
    submitHandler [("GEMINI_API_KEY", "some-key")] true "   " "10 Downing St" =
      Except.ok (UIOutcome.warning "Please enter both addresses.") :=
  claim_C6_blank_address_warning [("GEMINI_API_KEY", "some-key")]
    "some-key" "   " "10 Downing St" rfl (by decide) (Or.inl rfl)

/-- Claim C7: a syntactically valid JSON object input lacking a
confidence key yields a `MatchResult` whose confidence is 0
(`payload.get` returns the default `0`, and `float(0)` is `0.0`). -/
theorem claim_C7_missing_confidence_zero (raw : String) (kvs : List (String × Json))
    (hl : loads raw = some (Json.obj kvs))
    (habs : ∀ kv ∈ kvs, kv.1 ≠ "confidence") :
    parse_json_response raw = Except.ok (some (MatchResult.mk 0
      (pyStrip (pyStr (pyDictGet kvs "decision" (Json.str ""))))
      (pyStrip (pyStr (pyDictGet kvs "reasoning" (Json.str "")))))) := by
  have hget : pyDictGet kvs "confidence" (Json.int 0) = Json.int 0 :=
    pyDictGet_of_absent kvs "confidence" (Json.int 0) habs
  unfold parse_json_response
  rw [hl]
  dsimp only
  rw [hget]
  norm_num [pyFloat]

theorem claim_C7_witness :
    parse_json_response "\x7b\"decision\": \"match\"\x7d" =
      Except.ok (some (MatchResult.mk 0
        (pyStrip (pyStr (pyDictGet [("decision", Json.str "match")] "decision" (Json.str ""))))
        (pyStrip (pyStr (pyDictGet [("decision", Json.str "match")] "reasoning" (Json.str "")))))) :=
  claim_C7_missing_confidence_zero "\x7b\"decision\": \"match\"\x7d"
    [("decision", Json.str "match")] rfl (by decide)

/-- Claim C8: decision and reasoning of every returned `MatchResult` are
stripped string conversions, so they carry no leading or trailing
whitespace. -/
theorem claim_C8_fields_stripped (raw : String) (r : MatchResult)
    (h : parse_json_response raw = Except.ok (some r)) :
    (∀ c, r.decision.toList.head? = some c → pyIsSpace c = false) ∧
    (∀ c, r.decision.toList.getLast? = some c → pyIsSpace c = false) ∧
    (∀ c, r.reasoning.toList.head? = some c → pyIsSpace c = false) ∧
    (∀ c, r.reasoning.toList.getLast? = some c → pyIsSpace c = false) := by
  obtain ⟨kvs, q, hl, hf, hr⟩ := parse_ok_shape raw r h
  subst hr
  exact ⟨fun c hc => pyStrip_head_not_space _ c hc,
         fun c hc => pyStrip_getLast_not_space _ c hc,
         fun c hc => pyStrip_head_not_space _ c hc,
         fun c hc => pyStrip_getLast_not_space _ c hc⟩

theorem claim_C8_witness : pyIsSpace 'o' = false ∧ pyIsSpace 'k' = false :=
  ⟨(claim_C8_fields_stripped "\x7b\"decision\": \" ok \"\x7d"
      (MatchResult.mk 0 "ok" "") rfl).1 'o' rfl,
   (claim_C8_fields_stripped "\x7b\"decision\": \" ok \"\x7d"
      (MatchResult.mk 0 "ok" "") rfl).2.1 'k' rfl⟩

/-- Claim C9 counterexample: `\x7b"confidence": null\x7d` is a valid JSON
object lacking both the decision and the reasoning key, yet
`parse_json_response` returns no `MatchResult` at all (the `float(None)`
`TypeError` is caught and `None` is returned). -/
theorem claim_C9_counterexample :
    loads "\x7b\"confidence\": null\x7d" =
      some (Json.obj [("confidence", Json.null)]) ∧
    parse_json_response "\x7b\"confidence\": null\x7d" = Except.ok none :=
  ⟨rfl, rfl⟩

/-- Claim C9 amended: for a valid JSON object input, whenever
`parse_json_response` does return a `MatchResult`, a missing decision or
reasoning key defaults that field to the empty string. -/
theorem claim_C9_amended_missing_field_empty (raw : String)
    (kvs : List (String × Json)) (r : MatchResult)
    (hl : loads raw = some (Json.obj kvs))
    (h : parse_json_response raw = Except.ok (some r)) :
    ((∀ kv ∈ kvs, kv.1 ≠ "decision") → r.decision = "") ∧
    ((∀ kv ∈ kvs, kv.1 ≠ "reasoning") → r.reasoning = "") := by
  obtain ⟨kvs2, q, hl2, hf, hr⟩ := parse_ok_shape raw r h
  rw [hl] at hl2
  have hk := Json.obj.inj (Option.some.inj hl2)
  subst hk
  subst hr
  constructor
  · intro habs
    rw [pyDictGet_of_absent kvs "decision" (Json.str "") habs]
    rfl
  · intro habs
    rw [pyDictGet_of_absent kvs "reasoning" (Json.str "") habs]
    rfl

theorem claim_C9_witness :
    (MatchResult.mk 5 "" "").decision = "" ∧
    (MatchResult.mk 5 "" "").reasoning = "" :=
  ⟨(claim_C9_amended_missing_field_empty "\x7b\"confidence\": 5\x7d"
      [("confidence", Json.int 5)] (MatchResult.mk 5 "" "") rfl rfl).1 (by decide),
   (claim_C9_amended_missing_field_empty "\x7b\"confidence\": 5\x7d"
      [("confidence", Json.int 5)] (MatchResult.mk 5 "" "") rfl rfl).2 (by decide)⟩

/-- Claim C10: the confidence value need not be a JSON number — anything
whose `float(...)` conversion succeeds (e.g. the string "85", a boolean)
becomes the numeric confidence, and exactly the values whose conversion
raises `TypeError` or `ValueError` make the parse return `None`. -/
theorem claim_C10_confidence_conversion (raw : String) (kvs : List (String × Json))
    (hl : loads raw = some (Json.obj kvs)) :
    (∀ q, pyFloat (pyDictGet kvs "confidence" (Json.int 0)) = Except.ok q →
       parse_json_response raw = Except.ok (some (MatchResult.mk q
         (pyStrip (pyStr (pyDictGet kvs "decision" (Json.str ""))))
         (pyStrip (pyStr (pyDictGet kvs "reasoning" (Json.str ""))))))) ∧
    (∀ e, pyFloat (pyDictGet kvs "confidence" (Json.int 0)) = Except.error e →
       parse_json_response raw = Except.ok none) := by
  constructor
  · intro q hf
    unfold parse_json_response
    rw [hl]
    dsimp only
    rw [hf]
  · intro e hf
    rcases pyFloat_error_cases _ _ hf with he | he <;>
      (subst he
       unfold parse_json_response
       rw [hl]
       dsimp only
       rw [hf])

theorem claim_C10_witness :
    pyFloat (Json.str "85") = Except.ok 85 ∧
    pyFloat (Json.bool true) = Except.ok 1 ∧
    parse_json_response "\x7b\"confidence\": \"85\"\x7d" =
      Except.ok (some (MatchResult.mk 85
        (pyStrip (pyStr (pyDictGet [("confidence", Json.str "85")] "decision" (Json.str ""))))
        (pyStrip (pyStr (pyDictGet [("confidence", Json.str "85")] "reasoning" (Json.str "")))))) ∧
    parse_json_response "\x7b\"confidence\": null\x7d" = Except.ok none :=
  ⟨rfl, rfl,
   (claim_C10_confidence_conversion "\x7b\"confidence\": \"85\"\x7d"
      [("confidence", Json.str "85")] rfl).1 85 rfl,
   (claim_C10_confidence_conversion "\x7b\"confidence\": null\x7d"
      [("confidence", Json.null)] rfl).2 PyExc.typeError rfl⟩
